import Mathlib

-- Verification of the SynergyMesh Layer-0 HAL (system_hal.c / system_hal.h)
-- against its natural-language specification.
--
-- Shallow embedding conventions:
--   * C unsigned integers are modelled as Nat or Int with explicit `% 2^w`
--     wherever the source can overflow (the interrupt-nesting counter is a
--     uint32_t, pointers are 64-bit uintptr_t values).
--   * The process-wide counter `g_interrupt_nesting` is passed explicitly as
--     state; each HAL call is a function from the pre-state to its result and
--     post-state.
--   * Nullable C pointers become Option values; `hal_status_t` is a plain
--     inductive mirroring the enum in system_hal.h.
--   * The OS clock environment (clock_gettime results, nanosleep behaviour,
--     the samples observed by a busy-wait loop) is passed in explicitly.

namespace SystemHal

-- ==========================================================================
-- Status codes (system_hal.h, hal_status_t)
-- ==========================================================================

/-- Return codes for HAL operations, mirroring the `hal_status_t` enum. -/
inductive hal_status_t where
  | HAL_OK
  | HAL_ERROR
  | HAL_TIMEOUT
  | HAL_BUSY
  | HAL_INVALID_PARAM
deriving DecidableEq

-- ==========================================================================
-- Interrupt / critical-section emulation (system_hal.c lines 256-276)
-- ==========================================================================

/-- Modulus of the C `uint32_t` type: 2 ^ 32.  The nesting counter
`g_interrupt_nesting` is a uint32_t, so its increment wraps at this value. -/
def UINT32_MOD : Int := 4294967296

/-- `hal_disable_interrupts`: `return g_interrupt_nesting++;`.  Takes the
current counter, returns the pre-increment value (the token) together with
the post-state; the increment wraps as a uint32_t. -/
def hal_disable_interrupts (c : Int) : Int × Int :=
  (c, (c + 1) % UINT32_MOD)

/-- `hal_restore_interrupts(state)`: decrements the counter only when it is
currently positive; the `state` token is received but never read. -/
def hal_restore_interrupts (state : Int) (c : Int) : Int :=
  if 0 < c then c - 1 else c

/-- `hal_enter_critical`: calls `hal_disable_interrupts()` and discards the
returned token. -/
def hal_enter_critical (c : Int) : Int :=
  (hal_disable_interrupts c).2

/-- `hal_exit_critical`: calls `hal_restore_interrupts(0)`. -/
def hal_exit_critical (c : Int) : Int :=
  hal_restore_interrupts 0 c

/-- A call in a disable/restore call sequence. -/
inductive HalIntOp where
  | disable
  | restore
deriving DecidableEq

/-- Run a sequence of disable/restore calls on the nesting counter.  The
token passed to each restore is irrelevant (see
`hal_restore_interrupts_token_independent`), so 0 is used. -/
def runIntOps : List HalIntOp → Int → Int
  | [], c => c
  | HalIntOp.disable :: ops, c => runIntOps ops (hal_disable_interrupts c).2
  | HalIntOp.restore :: ops, c => runIntOps ops (hal_restore_interrupts 0 c)

/-- Number of disable calls in a sequence. -/
def countDisables : List HalIntOp → Nat
  | [] => 0
  | HalIntOp.disable :: ops => countDisables ops + 1
  | HalIntOp.restore :: ops => countDisables ops

/-- Number of restore calls in a sequence. -/
def countRestores : List HalIntOp → Nat
  | [] => 0
  | HalIntOp.disable :: ops => countRestores ops
  | HalIntOp.restore :: ops => countRestores ops + 1

/-- A call sequence is safe from counter value `c` when every restore runs
while the counter is positive (so its guarded decrement actually fires) and
every disable runs below the uint32 wrap value. -/
def safePath : Int → List HalIntOp → Bool
  | _, [] => true
  | c, HalIntOp.disable :: ops => decide (c + 1 < UINT32_MOD) && safePath (c + 1) ops
  | c, HalIntOp.restore :: ops => decide (0 < c) && safePath (c - 1) ops

theorem runIntOps_nonneg (ops : List HalIntOp) : ∀ c : Int, 0 ≤ c → 0 ≤ runIntOps ops c := by
  induction ops with
  | nil => intro c hc; simpa [runIntOps] using hc
  | cons op ops ih =>
    intro c hc
    cases op with
    | disable =>
      refine ih _ ?_
      exact Int.emod_nonneg _ (by norm_num [UINT32_MOD])
    | restore =>
      refine ih _ ?_
      unfold hal_restore_interrupts
      split <;> omega

theorem runIntOps_safe_balance (ops : List HalIntOp) :
    ∀ c : Int, 0 ≤ c → safePath c ops = true →
    runIntOps ops c + (countRestores ops : Int) = c + (countDisables ops : Int) := by
  induction ops with
  | nil => intro c _ _; simp [runIntOps, countRestores, countDisables]
  | cons op ops ih =>
    intro c hc hs
    cases op with
    | disable =>
      simp only [safePath, Bool.and_eq_true, decide_eq_true_eq] at hs
      have h1 : (c + 1) % UINT32_MOD = c + 1 := Int.emod_eq_of_lt (by omega) hs.1
      simp only [runIntOps, hal_disable_interrupts, h1, countDisables, countRestores]
      have hrec := ih (c + 1) (by omega) hs.2
      push_cast at hrec ⊢
      omega
    | restore =>
      simp only [safePath, Bool.and_eq_true, decide_eq_true_eq] at hs
      simp only [runIntOps, hal_restore_interrupts, if_pos hs.1, countDisables, countRestores]
      have hrec := ih (c - 1) (by omega) hs.2
      push_cast at hrec ⊢
      omega

-- ==========================================================================
-- Timing (system_hal.c lines 65-113)
-- ==========================================================================

/-- Modulus of the C `uint64_t` type: 2 ^ 64.  Timestamps
(`hal_timestamp_us_t`) and pointer values are 64-bit. -/
def UINT64_MOD : Nat := 18446744073709551616

theorem UINT64_MOD_eq : UINT64_MOD = 2 ^ 64 := by norm_num [UINT64_MOD]

/-- A `struct timespec` as filled in by `clock_gettime`. -/
structure Timespec where
  tv_sec : Nat
  tv_nsec : Nat
deriving DecidableEq

/-- The conversion performed by `hal_get_timestamp_us` on a successful
reading: `(uint64)tv_sec * 1000000 + (uint64)tv_nsec / 1000`, in uint64
arithmetic. -/
def timespec_to_us (ts : Timespec) : Nat :=
  (ts.tv_sec * 1000000 + ts.tv_nsec / 1000) % UINT64_MOD

/-- `hal_get_timestamp_us`: tries `CLOCK_MONOTONIC_RAW` first, falls back to
`CLOCK_MONOTONIC`, and returns the 0 sentinel when both fail.  The
environment supplies each `clock_gettime` outcome as an Option (`none` means
the call failed). -/
def hal_get_timestamp_us (raw mono : Option Timespec) : Nat :=
  match raw with
  | some ts => timespec_to_us ts
  | none =>
    match mono with
    | some ts => timespec_to_us ts
    | none => 0

/-- The reading actually consumed by `hal_get_timestamp_us`: the raw
reading when available, the fallback reading otherwise. -/
def hal_selected_reading (raw mono : Option Timespec) : Option Timespec :=
  match raw with
  | some ts => some ts
  | none => mono

/-- Total nanoseconds represented by a timespec (for comparing readings). -/
def timespec_ns (ts : Timespec) : Nat :=
  ts.tv_sec * 1000000000 + ts.tv_nsec

theorem hal_get_timestamp_us_eq_of_selected (raw mono : Option Timespec)
    (r : Timespec) (h : hal_selected_reading raw mono = some r) :
    hal_get_timestamp_us raw mono = timespec_to_us r := by
  cases raw with
  | some ts =>
    simp only [hal_selected_reading, Option.some.injEq] at h
    simp [hal_get_timestamp_us, h]
  | none =>
    cases mono with
    | some ts =>
      simp only [hal_selected_reading, Option.some.injEq] at h
      simp [hal_get_timestamp_us, h]
    | none => simp [hal_selected_reading] at h

theorem timespec_to_us_mono (a b : Timespec)
    (hab : timespec_ns a ≤ timespec_ns b)
    (hb : b.tv_sec * 1000000 + b.tv_nsec / 1000 < UINT64_MOD) :
    timespec_to_us a ≤ timespec_to_us b := by
  unfold timespec_to_us
  unfold timespec_ns at hab
  have ha2 : a.tv_sec * 1000000 + a.tv_nsec / 1000
      = (a.tv_sec * 1000000000 + a.tv_nsec) / 1000 := by omega
  have hb2 : b.tv_sec * 1000000 + b.tv_nsec / 1000
      = (b.tv_sec * 1000000000 + b.tv_nsec) / 1000 := by omega
  have hle : a.tv_sec * 1000000 + a.tv_nsec / 1000
      ≤ b.tv_sec * 1000000 + b.tv_nsec / 1000 := by
    rw [ha2, hb2]
    exact Nat.div_le_div_right hab
  rw [Nat.mod_eq_of_lt (lt_of_le_of_lt hle hb), Nat.mod_eq_of_lt hb]
  exact hle

/-- The busy-wait branch of `hal_delay_us`
(`while (hal_get_timestamp_us() < end) hal_spin_hint();`): consume
successive timestamp samples from the environment until one reaches the end
time; that final sample is the last `hal_get_timestamp_us` result observed
inside the call.  `none` models a run in which the supplied sample trace is
exhausted before the deadline. -/
def hal_delay_us_busy_loop : List Nat → Nat → Option Nat
  | [], _ => none
  | s :: rest, endTime =>
    if s < endTime then hal_delay_us_busy_loop rest endTime else some s

/-- The nanoseconds requested from `nanosleep` by the sleep branch of
`hal_delay_us`: `tv_sec = delay_us / 1000000`,
`tv_nsec = (delay_us % 1000000) * 1000`. -/
def hal_delay_us_sleep_req_ns (delay_us : Nat) : Nat :=
  (delay_us / 1000000) * 1000000000 + (delay_us % 1000000) * 1000

/-- `hal_delay_us(delay_us)`: computes `end = start + delay_us` (uint64);
for delays strictly above 10000 us it issues a single `nanosleep` (the
environment supplies `postSleepTs`, the timestamp reached when the sleep
returns), otherwise it busy-polls the clock until `end`.  The result is the
last timestamp observed by the call. -/
def hal_delay_us (delay_us start postSleepTs : Nat) (samples : List Nat) :
    Option Nat :=
  if 10000 < delay_us then some postSleepTs
  else hal_delay_us_busy_loop samples ((start + delay_us) % UINT64_MOD)

theorem hal_delay_us_sleep_req_ns_eq (delay_us : Nat) :
    hal_delay_us_sleep_req_ns delay_us = delay_us * 1000 := by
  unfold hal_delay_us_sleep_req_ns
  omega

theorem hal_delay_us_busy_loop_ge :
    ∀ (samples : List Nat) (endTime t : Nat),
      hal_delay_us_busy_loop samples endTime = some t → endTime ≤ t
  | [], _, _, h => by simp [hal_delay_us_busy_loop] at h
  | s :: rest, endTime, t, h => by
    by_cases hs : s < endTime
    · exact hal_delay_us_busy_loop_ge rest endTime t
        (by simpa [hal_delay_us_busy_loop, hs] using h)
    · have hst : s = t := by simpa [hal_delay_us_busy_loop, hs] using h
      omega

-- ==========================================================================
-- Aligned memory, manual over-allocation fallback (system_hal.c lines 156-194)
-- ==========================================================================

/-- `sizeof(void*)` on the 64-bit reference platform. -/
def PTR_SIZE : Nat := 8

/-- Characterization of the alignment mask: for a power-of-two alignment
`2 ^ k` on a `w`-bit machine, `y & ~(2 ^ k - 1)` (whose two's-complement
value is `2 ^ w - 2 ^ k`) rounds `y` down to a multiple of `2 ^ k`. -/
theorem land_two_pow_sub (w k y : Nat) (hk : k ≤ w) (hy : y < 2 ^ w) :
    y &&& (2 ^ w - 2 ^ k) = y / 2 ^ k * 2 ^ k := by
  have hmask : 2 ^ w - 2 ^ k = (2 ^ (w - k) - 1) <<< k := by
    rw [Nat.shiftLeft_eq, Nat.sub_mul, one_mul, ← Nat.pow_add]
    congr 2
    omega
  have hy2 : y / 2 ^ k * 2 ^ k = (y >>> k) <<< k := by
    rw [Nat.shiftLeft_eq, Nat.shiftRight_eq_div_pow]
  rw [hmask, hy2]
  apply Nat.eq_of_testBit_eq
  intro i
  rw [Nat.testBit_and, Nat.testBit_shiftLeft, Nat.testBit_shiftLeft,
    Nat.testBit_shiftRight, Nat.testBit_two_pow_sub_one]
  by_cases hik : k ≤ i
  · have hadd : k + (i - k) = i := by omega
    by_cases hiw : i < w
    · have hsub : i - k < w - k := by omega
      simp [hik, hadd, hsub]
    · have hbit : y.testBit i = false :=
        Nat.testBit_lt_two_pow
          (lt_of_lt_of_le hy (Nat.pow_le_pow_right (by norm_num) (by omega)))
      have hsub : ¬ (i - k < w - k) := by omega
      simp [hik, hadd, hsub, hbit]
  · simp [hik]

/-- The aligned address computed by the manual fallback of
`hal_malloc_aligned` from the raw `malloc` result:
`addr = (uintptr_t)raw + sizeof(void*)`,
`aligned = (addr + alignment - 1) & ~(alignment - 1)`, in 64-bit pointer
arithmetic (`~(alignment - 1)` has value `2 ^ 64 - alignment`). -/
def hal_malloc_aligned_addr (raw alignment : Nat) : Nat :=
  (((raw + PTR_SIZE) % UINT64_MOD + alignment - 1) % UINT64_MOD) &&&
    (UINT64_MOD - alignment)

/-- Number of bytes the fallback requests from `malloc`:
`size + alignment + sizeof(void*)`. -/
def hal_malloc_aligned_raw_size (size alignment : Nat) : Nat :=
  size + alignment + PTR_SIZE

/-- Byte-addressed memory holding pointer-sized values, with a store. -/
def memStore (m : Nat → Nat) (a v : Nat) : Nat → Nat :=
  fun x => if x = a then v else m x

/-- The memory after the fallback stashes the raw base pointer in the
pointer-sized slot immediately before the aligned address
(`*((void**)aligned - 1) = raw`). -/
def hal_malloc_aligned_mem (m : Nat → Nat) (raw alignment : Nat) : Nat → Nat :=
  memStore m ((hal_malloc_aligned_addr raw alignment - PTR_SIZE) % UINT64_MOD) raw

/-- The manual over-allocation fallback of `hal_malloc_aligned`: given the
raw `malloc` result (`0` models a NULL return, i.e. out of memory), returns
NULL, or the aligned pointer together with the memory after the stash
write. -/
def hal_malloc_aligned (m : Nat → Nat) (raw alignment : Nat) :
    Option (Nat × (Nat → Nat)) :=
  if raw = 0 then none
  else some (hal_malloc_aligned_addr raw alignment,
             hal_malloc_aligned_mem m raw alignment)

/-- The fallback branch of `hal_free_aligned`: NULL is a no-op (`none`);
otherwise the original base pointer is recovered from
`*((void**)ptr - 1)` and passed to `free` (returned here). -/
def hal_free_aligned (m : Nat → Nat) (ptr : Nat) : Option Nat :=
  if ptr = 0 then none
  else some (m ((ptr - PTR_SIZE) % UINT64_MOD))

theorem hal_malloc_aligned_addr_eq (raw k : Nat) (hk : k ≤ 64)
    (hnw : raw + PTR_SIZE + 2 ^ k - 1 < UINT64_MOD) :
    hal_malloc_aligned_addr raw (2 ^ k)
      = (raw + PTR_SIZE + 2 ^ k - 1) / 2 ^ k * 2 ^ k := by
  have hp : 0 < 2 ^ k := Nat.pos_pow_of_pos k (by norm_num)
  unfold hal_malloc_aligned_addr
  have h8 : (raw + PTR_SIZE) % UINT64_MOD = raw + PTR_SIZE :=
    Nat.mod_eq_of_lt (by omega)
  rw [h8]
  have hy : (raw + PTR_SIZE + 2 ^ k - 1) % UINT64_MOD
      = raw + PTR_SIZE + 2 ^ k - 1 := Nat.mod_eq_of_lt hnw
  rw [hy, UINT64_MOD_eq]
  exact land_two_pow_sub 64 k _ hk (by rw [← UINT64_MOD_eq]; omega)

-- ==========================================================================
-- Timer and DMA lifecycle (system_hal.c lines 119-150 and 228-250)
-- ==========================================================================

/-- `hal_timer_config_t` from system_hal.h.  The callback and user-data
pointers are opaque addresses the HAL never inspects. -/
structure hal_timer_config_t where
  frequency_hz : Nat
  enable_interrupt : Bool
  callback : Nat
  user_data : Nat
deriving DecidableEq

/-- `hal_dma_config_t` from system_hal.h. -/
structure hal_dma_config_t where
  src_addr : Nat
  dst_addr : Nat
  transfer_size : Nat
  circular : Bool
deriving DecidableEq

/-- `hal_timer_init`: rejects a NULL config, otherwise an inert success. -/
def hal_timer_init (timer_id : Nat) (config : Option hal_timer_config_t) :
    hal_status_t :=
  match config with
  | none => hal_status_t.HAL_INVALID_PARAM
  | some _ => hal_status_t.HAL_OK

/-- `hal_timer_start`: inert, always HAL_OK. -/
def hal_timer_start (timer_id : Nat) : hal_status_t :=
  hal_status_t.HAL_OK

/-- `hal_timer_stop`: inert, always HAL_OK. -/
def hal_timer_stop (timer_id : Nat) : hal_status_t :=
  hal_status_t.HAL_OK

/-- `hal_timer_get_counter`: rejects a NULL output pointer, otherwise
writes 0 through it and returns HAL_OK.  The second component is the value
written through the pointer (`none` when nothing was written). -/
def hal_timer_get_counter (timer_id : Nat) (counter : Option Nat) :
    hal_status_t × Option Nat :=
  match counter with
  | none => (hal_status_t.HAL_INVALID_PARAM, none)
  | some _ => (hal_status_t.HAL_OK, some 0)

/-- `hal_dma_init`: rejects a NULL config, otherwise an inert success. -/
def hal_dma_init (dma_id : Nat) (config : Option hal_dma_config_t) :
    hal_status_t :=
  match config with
  | none => hal_status_t.HAL_INVALID_PARAM
  | some _ => hal_status_t.HAL_OK

/-- `hal_dma_start`: inert, always HAL_OK. -/
def hal_dma_start (dma_id : Nat) : hal_status_t :=
  hal_status_t.HAL_OK

/-- `hal_dma_wait`: when `timeout_us > 0` it calls
`hal_delay_us(timeout_us)` and then returns HAL_OK; with a zero timeout it
returns HAL_OK immediately.  The second component records the duration
passed to `hal_delay_us` (`none` when no delay was issued). -/
def hal_dma_wait (dma_id : Nat) (timeout_us : Nat) :
    hal_status_t × Option Nat :=
  if 0 < timeout_us then (hal_status_t.HAL_OK, some timeout_us)
  else (hal_status_t.HAL_OK, none)

-- ==========================================================================
-- Claim theorems
-- ==========================================================================

/-- Claim C1, counterexample to the claim as stated: a balanced sequence of
N = 1 disables and N = 1 restores, interleaved so that the restore runs
first while the counter is 0, does not return the counter to its
pre-sequence value: the restore is a silent no-op, the disable then raises
the counter to 1. -/
theorem interrupt_counter_interleaving_counterexample :
    countDisables [HalIntOp.restore, HalIntOp.disable]
      = countRestores [HalIntOp.restore, HalIntOp.disable] ∧
    runIntOps [HalIntOp.restore, HalIntOp.disable] 0 = 1 ∧
    runIntOps [HalIntOp.restore, HalIntOp.disable] 0 ≠ 0 := by
  refine ⟨rfl, ?_, ?_⟩ <;> decide

/-- Claim C1 (amended): the counter never goes below zero under any call
sequence; and a balanced sequence of disables and restores returns the
counter to its pre-sequence value provided every restore runs while the
counter is positive and no disable wraps the uint32 counter. -/
theorem interrupt_counter_invariant :
    (∀ (ops : List HalIntOp) (c : Int), 0 ≤ c → 0 ≤ runIntOps ops c) ∧
    (∀ (ops : List HalIntOp) (c : Int), 0 ≤ c → safePath c ops = true →
      countDisables ops = countRestores ops → runIntOps ops c = c) := by
  refine ⟨runIntOps_nonneg, ?_⟩
  intro ops c hc hs hbal
  have hrec := runIntOps_safe_balance ops c hc hs
  omega

/-- Witness for C1: the concrete balanced nesting disable-then-restore from
counter 0 is safe and returns to 0. -/
theorem interrupt_counter_invariant_witness :
    0 ≤ runIntOps [HalIntOp.disable, HalIntOp.restore] 0 ∧
    runIntOps [HalIntOp.disable, HalIntOp.restore] 0 = 0 :=
  ⟨interrupt_counter_invariant.1 [HalIntOp.disable, HalIntOp.restore] 0 (by decide),
   interrupt_counter_invariant.2 [HalIntOp.disable, HalIntOp.restore] 0
     (by decide) (by decide) (by decide)⟩

/-- Claim C6: the effect of `hal_restore_interrupts` on the nesting counter
is independent of the token argument, which is never inspected. -/
theorem hal_restore_interrupts_token_independent (c t1 t2 : Int) :
    hal_restore_interrupts t1 c = hal_restore_interrupts t2 c := rfl

/-- Claim C7, counterexample to the claim as stated: from the reachable
counter state 2^32 - 1, `hal_enter_critical` wraps the uint32 counter to 0
and `hal_exit_critical` is then a no-op, so the pair is not a net no-op
from that state. -/
theorem critical_section_wrap_counterexample :
    hal_exit_critical (hal_enter_critical (UINT32_MOD - 1)) = 0 ∧
    hal_exit_critical (hal_enter_critical (UINT32_MOD - 1)) ≠ UINT32_MOD - 1 := by
  refine ⟨?_, ?_⟩ <;> decide

/-- Claim C7 (amended): `hal_enter_critical` has exactly the effect of
`hal_disable_interrupts` with the token discarded, `hal_exit_critical` is
exactly `hal_restore_interrupts(0)`, and the pair enter-then-exit is a net
no-op on the counter from every state below the uint32 wrap value. -/
theorem critical_section_noop (c : Int) (hc : 0 ≤ c)
    (hlt : c + 1 < UINT32_MOD) :
    hal_enter_critical c = (hal_disable_interrupts c).2 ∧
    hal_exit_critical c = hal_restore_interrupts 0 c ∧
    hal_exit_critical (hal_enter_critical c) = c := by
  refine ⟨rfl, rfl, ?_⟩
  unfold hal_exit_critical hal_enter_critical hal_disable_interrupts
    hal_restore_interrupts
  have h1 : (c + 1) % UINT32_MOD = c + 1 := Int.emod_eq_of_lt (by omega) hlt
  simp only [h1]
  rw [if_pos (by omega)]
  omega

/-- Witness for C7: from counter 5 the enter/exit pair returns to 5. -/
theorem critical_section_noop_witness :
    hal_enter_critical 5 = (hal_disable_interrupts 5).2 ∧
    hal_exit_critical 5 = hal_restore_interrupts 0 5 ∧
    hal_exit_critical (hal_enter_critical 5) = 5 :=
  critical_section_noop 5 (by decide) (by decide)

/-- Claim C2: for every requested delay D > 0, `hal_delay_us` does not
return before the clock has advanced by at least D microseconds past the
start timestamp, in both branches.  The environment hypotheses are the
POSIX contracts of the primitives used: a terminating busy poll yields a
sample at or past the deadline by the loop guard, and `nanosleep` suspends
for at least the requested duration (here translated through the timespec
the code builds, `hal_delay_us_sleep_req_ns`). -/
theorem hal_delay_us_min_elapsed (delay_us start postSleepTs : Nat)
    (samples : List Nat) (t : Nat)
    (hpos : 0 < delay_us)
    (hnw : start + delay_us < UINT64_MOD)
    (hsleep : 10000 < delay_us →
      start + hal_delay_us_sleep_req_ns delay_us / 1000 ≤ postSleepTs)
    (hrun : hal_delay_us delay_us start postSleepTs samples = some t) :
    start + delay_us ≤ t := by
  unfold hal_delay_us at hrun
  split at hrun
  · have ht : postSleepTs = t := Option.some.inj hrun
    have hs := hsleep (by assumption)
    rw [hal_delay_us_sleep_req_ns_eq] at hs
    omega
  · rw [Nat.mod_eq_of_lt hnw] at hrun
    exact hal_delay_us_busy_loop_ge samples _ t hrun

/-- Witness for C2: a 5 us busy-poll whose sample trace reaches the
deadline at sample 7 satisfies the elapsed bound. -/
theorem hal_delay_us_min_elapsed_witness : 0 + 5 ≤ 7 :=
  hal_delay_us_min_elapsed 5 0 0 [3, 7] 7 (by decide) (by decide)
    (fun h => absurd h (by decide)) (by decide)

/-- Claim C3: in the manual over-allocation fallback, for every size > 0
and power-of-two alignment, `hal_malloc_aligned` returns NULL exactly when
`malloc` did, and otherwise an address that is a multiple of the alignment;
the aligned block of `size` bytes lies inside the raw allocation of
`size + alignment + sizeof(void*)` bytes, the stash slot immediately below
the aligned address also lies inside it, and `hal_free_aligned` recovers
the raw base pointer from that slot. -/
theorem hal_malloc_aligned_correct (m : Nat → Nat) (raw size k : Nat)
    (hk : k ≤ 64) (hsize : 0 < size) (hraw : raw ≠ 0)
    (hnw : raw + PTR_SIZE + 2 ^ k - 1 < UINT64_MOD) :
    hal_malloc_aligned m raw (2 ^ k)
      = some (hal_malloc_aligned_addr raw (2 ^ k),
              hal_malloc_aligned_mem m raw (2 ^ k)) ∧
    hal_malloc_aligned_addr raw (2 ^ k) % 2 ^ k = 0 ∧
    raw + PTR_SIZE ≤ hal_malloc_aligned_addr raw (2 ^ k) ∧
    hal_malloc_aligned_addr raw (2 ^ k) + size
      ≤ raw + hal_malloc_aligned_raw_size size (2 ^ k) ∧
    hal_free_aligned (hal_malloc_aligned_mem m raw (2 ^ k))
        (hal_malloc_aligned_addr raw (2 ^ k)) = some raw := by
  have hp : 0 < 2 ^ k := Nat.pos_pow_of_pos k (by norm_num)
  have haddr := hal_malloc_aligned_addr_eq raw k hk hnw
  have hdm := Nat.div_add_mod' (raw + PTR_SIZE + 2 ^ k - 1) (2 ^ k)
  have hmlt : (raw + PTR_SIZE + 2 ^ k - 1) % 2 ^ k < 2 ^ k :=
    Nat.mod_lt _ hp
  have hlow : raw + PTR_SIZE ≤ hal_malloc_aligned_addr raw (2 ^ k) := by
    rw [haddr]; omega
  have hhigh : hal_malloc_aligned_addr raw (2 ^ k) + size
      ≤ raw + hal_malloc_aligned_raw_size size (2 ^ k) := by
    rw [haddr]
    unfold hal_malloc_aligned_raw_size PTR_SIZE
    unfold PTR_SIZE at hdm hnw
    omega
  refine ⟨?_, ?_, hlow, hhigh, ?_⟩
  · unfold hal_malloc_aligned
    rw [if_neg hraw]
  · rw [haddr]
    exact Nat.mul_mod_left _ _
  · have hne : hal_malloc_aligned_addr raw (2 ^ k) ≠ 0 := by
      unfold PTR_SIZE at hlow
      omega
    unfold hal_free_aligned hal_malloc_aligned_mem
    rw [if_neg hne]
    simp [memStore]

/-- Witness for C3: raw pointer 16, size 32, alignment 16 yields the
aligned address 32 with all layout facts holding. -/
theorem hal_malloc_aligned_correct_witness :
    hal_malloc_aligned (fun _ => 0) 16 (2 ^ 4)
      = some (hal_malloc_aligned_addr 16 (2 ^ 4),
              hal_malloc_aligned_mem (fun _ => 0) 16 (2 ^ 4)) ∧
    hal_malloc_aligned_addr 16 (2 ^ 4) % 2 ^ 4 = 0 ∧
    16 + PTR_SIZE ≤ hal_malloc_aligned_addr 16 (2 ^ 4) ∧
    hal_malloc_aligned_addr 16 (2 ^ 4) + 32
      ≤ 16 + hal_malloc_aligned_raw_size 32 (2 ^ 4) ∧
    hal_free_aligned (hal_malloc_aligned_mem (fun _ => 0) 16 (2 ^ 4))
        (hal_malloc_aligned_addr 16 (2 ^ 4)) = some 16 :=
  hal_malloc_aligned_correct (fun _ => 0) 16 32 4 (by decide) (by decide)
    (by decide) (by decide)

/-- Claim C4: `hal_timer_init` and `hal_dma_init` return HAL_INVALID_PARAM
exactly when the configuration pointer is NULL, and HAL_OK for every
non-NULL configuration and every channel id (no range check on the id). -/
theorem hal_init_null_config_check (timer_id dma_id : Nat) :
    (∀ config, hal_timer_init timer_id config = hal_status_t.HAL_INVALID_PARAM
      ↔ config = none) ∧
    (∀ config, hal_dma_init dma_id config = hal_status_t.HAL_INVALID_PARAM
      ↔ config = none) ∧
    (∀ c, hal_timer_init timer_id (some c) = hal_status_t.HAL_OK) ∧
    (∀ c, hal_dma_init dma_id (some c) = hal_status_t.HAL_OK) := by
  refine ⟨?_, ?_, fun _ => rfl, fun _ => rfl⟩ <;>
    intro config <;> cases config <;> simp [hal_timer_init, hal_dma_init]

/-- Claim C5, counterexample to the claim as stated: `hal_timer_get_counter`
does not return HAL_OK for every input — a NULL output pointer is rejected
with HAL_INVALID_PARAM (system_hal.c lines 143-145). -/
theorem hal_timer_get_counter_not_unconditional :
    (hal_timer_get_counter 0 none).1 = hal_status_t.HAL_INVALID_PARAM ∧
    (hal_timer_get_counter 0 none).1 ≠ hal_status_t.HAL_OK :=
  ⟨rfl, by decide⟩

/-- Claim C5 (amended): `hal_timer_start`, `hal_timer_stop`,
`hal_dma_start` and `hal_dma_wait` return HAL_OK unconditionally for every
input; `hal_timer_get_counter` returns HAL_OK for every non-NULL output
pointer but HAL_INVALID_PARAM for a NULL one — a null-pointer check beyond
the two init functions' null-config checks. -/
theorem hal_lifecycle_inert_success (id1 id2 id3 id4 id5 t v : Nat) :
    hal_timer_start id1 = hal_status_t.HAL_OK ∧
    hal_timer_stop id2 = hal_status_t.HAL_OK ∧
    hal_dma_start id3 = hal_status_t.HAL_OK ∧
    (hal_dma_wait id4 t).1 = hal_status_t.HAL_OK ∧
    (hal_timer_get_counter id5 (some v)).1 = hal_status_t.HAL_OK ∧
    (hal_timer_get_counter id5 none).1 = hal_status_t.HAL_INVALID_PARAM := by
  refine ⟨rfl, rfl, rfl, ?_, rfl, rfl⟩
  unfold hal_dma_wait
  split <;> rfl

/-- Claim C8, counterexample to the claim as stated: monotonicity does not
hold across the fallback to the 0 sentinel — a first call that read a
successful clock value returns 10^6, a second call in which both clock
sources fail returns the 0 sentinel, which is smaller. -/
theorem hal_get_timestamp_us_sentinel_counterexample :
    hal_get_timestamp_us none none = 0 ∧
    hal_get_timestamp_us (some (Timespec.mk 1 0)) (some (Timespec.mk 1 0))
      = 1000000 ∧
    hal_get_timestamp_us none none
      < hal_get_timestamp_us (some (Timespec.mk 1 0)) (some (Timespec.mk 1 0)) := by
  refine ⟨rfl, ?_, ?_⟩ <;> decide

/-- Claim C8 (amended): `hal_get_timestamp_us` is monotonic non-decreasing
across any two calls that both obtain a successful clock reading through
the fallback chain, provided the readings actually consumed are
non-decreasing (in nanoseconds) and the second converted value does not
overflow uint64; a call degrading to the 0 sentinel can go backwards. -/
theorem hal_get_timestamp_us_monotone (raw1 mono1 raw2 mono2 : Option Timespec)
    (r1 r2 : Timespec)
    (h1 : hal_selected_reading raw1 mono1 = some r1)
    (h2 : hal_selected_reading raw2 mono2 = some r2)
    (hmono : timespec_ns r1 ≤ timespec_ns r2)
    (hnw : r2.tv_sec * 1000000 + r2.tv_nsec / 1000 < UINT64_MOD) :
    hal_get_timestamp_us raw1 mono1 ≤ hal_get_timestamp_us raw2 mono2 := by
  rw [hal_get_timestamp_us_eq_of_selected raw1 mono1 r1 h1,
    hal_get_timestamp_us_eq_of_selected raw2 mono2 r2 h2]
  exact timespec_to_us_mono r1 r2 hmono hnw

/-- Witness for C8: a first call served by CLOCK_MONOTONIC_RAW at 500 ns
and a second call that falls back to CLOCK_MONOTONIC at 1 s are ordered. -/
theorem hal_get_timestamp_us_monotone_witness :
    hal_get_timestamp_us (some (Timespec.mk 0 500)) none
      ≤ hal_get_timestamp_us none (some (Timespec.mk 1 0)) :=
  hal_get_timestamp_us_monotone (some (Timespec.mk 0 500)) none
    none (some (Timespec.mk 1 0)) (Timespec.mk 0 500) (Timespec.mk 1 0)
    (by decide) (by decide) (by decide) (by decide)

/-- Claim C9: `hal_timer_get_counter` with a NULL output pointer returns
HAL_INVALID_PARAM and writes nothing; with a non-NULL pointer it writes 0
and returns HAL_OK, for every timer id and every prior pointee value. -/
theorem hal_timer_get_counter_null_check (timer_id v : Nat) :
    hal_timer_get_counter timer_id none
      = (hal_status_t.HAL_INVALID_PARAM, none) ∧
    hal_timer_get_counter timer_id (some v) = (hal_status_t.HAL_OK, some 0) :=
  ⟨rfl, rfl⟩

/-- Claim C10: `hal_dma_wait` never returns HAL_TIMEOUT — it returns HAL_OK
for every channel id and timeout; a positive timeout is first spent in full
in a `hal_delay_us(timeout_us)` call, a zero timeout returns immediately
with no delay. -/
theorem hal_dma_wait_always_ok (dma_id timeout_us : Nat) :
    (hal_dma_wait dma_id timeout_us).1 = hal_status_t.HAL_OK ∧
    (hal_dma_wait dma_id timeout_us).1 ≠ hal_status_t.HAL_TIMEOUT ∧
    (hal_dma_wait dma_id timeout_us).2
      = (if 0 < timeout_us then some timeout_us else none) := by
  unfold hal_dma_wait
  split <;> exact ⟨rfl, fun h => hal_status_t.noConfusion h, rfl⟩

end SystemHal
